import Mathlib

/-!
Verification of the Phoenix-Nexus-Router control-plane code.

Shallow embedding of:
* src/watchdog/health_monitor.py   (health checks, failover, routing rebuild)
* src/routing/connection_tracker.py (flow keys, classification, sticky table)
* src/routing/interface_detector.py (speed-based weight suggestion)

Python floats are modelled as rationals, dicts as association lists in
insertion order, sets as duplicate-free lists, and f-strings by explicit
decimal rendering of naturals.
-/

namespace PhoenixNexus

/-! ### Health monitor: src/watchdog/health_monitor.py -/

/-- HealthStatus enum (health_monitor.py lines 19-23). -/
inductive HealthStatus where
  | healthy
  | degraded
  | failed
  | testing
  deriving DecidableEq, Repr

/-- The configuration fields of HealthMonitor.config consulted by the health
check and failover logic (health_monitor.py lines 48-60). -/
structure HealthConfig where
  retry_count : Nat
  max_latency_ms : ℚ
  max_packet_loss : ℚ
  deriving DecidableEq, Repr

/-- The default configuration values (health_monitor.py lines 48-60):
retry_count 3, max_latency_ms 2000, max_packet_loss 5.0. -/
def defaultHealthConfig : HealthConfig :=
  { retry_count := 3, max_latency_ms := 2000, max_packet_loss := 5 }

/-- Per-interface monitor state: the fields of self.interfaces[iface] together
with the status stored in self.health_results[iface]
(health_monitor.py lines 103-131). -/
structure IfaceState where
  enabled : Bool
  consecutive_failures : Nat
  total_checks : Nat
  successful_checks : Nat
  failed_checks : Nat
  status : HealthStatus
  deriving DecidableEq, Repr

/-- Initial tracking state of an interface (health_monitor.py lines 110-129):
enabled, zeroed counters, status TESTING. -/
def initIface : IfaceState :=
  { enabled := true, consecutive_failures := 0, total_checks := 0,
    successful_checks := 0, failed_checks := 0, status := .testing }

/-- _check_interface_health (health_monitor.py lines 194-246): bump
total_checks, then triage the ping result: packet_loss >= 100.0 gives FAILED,
otherwise loss above max_packet_loss or latency above max_latency_ms gives
DEGRADED, otherwise HEALTHY; consecutive_failures is incremented on the first
two branches and reset to 0 on the last. -/
def checkInterfaceHealth (cfg : HealthConfig) (s : IfaceState)
    (latency packet_loss : ℚ) : IfaceState :=
  let s1 := { s with total_checks := s.total_checks + 1 }
  if 100 ≤ packet_loss then
    { s1 with status := .failed,
              consecutive_failures := s1.consecutive_failures + 1,
              failed_checks := s1.failed_checks + 1 }
  else if cfg.max_packet_loss < packet_loss ∨ cfg.max_latency_ms < latency then
    { s1 with status := .degraded,
              consecutive_failures := s1.consecutive_failures + 1,
              failed_checks := s1.failed_checks + 1 }
  else
    { s1 with status := .healthy,
              consecutive_failures := 0,
              successful_checks := s1.successful_checks + 1 }

/-- _should_trigger_failover (health_monitor.py lines 248-263): trigger when
the stored result's consecutive_failures reached retry_count, or the stored
status is FAILED. -/
def shouldTriggerFailover (cfg : HealthConfig) (s : IfaceState) : Bool :=
  decide (cfg.retry_count ≤ s.consecutive_failures) || decide (s.status = .failed)

/-- One pass of the monitoring loop body for an enabled interface
(health_monitor.py lines 399-413): run the health check, then consult
_should_trigger_failover on the freshly stored result. -/
def monitorStep (cfg : HealthConfig) (s : IfaceState)
    (latency packet_loss : ℚ) : IfaceState × Bool :=
  let s' := checkInterfaceHealth cfg s latency packet_loss
  (s', shouldTriggerFailover cfg s')

/-- get_interface_stats (health_monitor.py lines 454-476): uptime_percentage
is (successful_checks / max(total_checks, 1)) * 100. -/
def uptimePercentage (s : IfaceState) : ℚ :=
  ((s.successful_checks : ℚ) / ((max s.total_checks 1 : Nat) : ℚ)) * 100

/-- Reachable per-interface monitor states: the initial tracking state
(health_monitor.py lines 103-131) evolved by _check_interface_health (also
invoked from _check_recovery), by the disabling mutation shared by
_trigger_failover (lines 265-286) and manual disable (lines 484-489), by
manual enable (lines 491-496), and by the temporary re-enable of the recovery
test (lines 350-354). -/
inductive MonitorReach : IfaceState → Prop where
  | init : MonitorReach initIface
  | check (cfg : HealthConfig) (s : IfaceState) (latency packet_loss : ℚ) :
      MonitorReach s → MonitorReach (checkInterfaceHealth cfg s latency packet_loss)
  | disable (s : IfaceState) :
      MonitorReach s → MonitorReach { s with enabled := false, status := .failed }
  | enable (s : IfaceState) :
      MonitorReach s → MonitorReach { s with enabled := true, status := .testing }
  | recoveryEnable (s : IfaceState) :
      MonitorReach s → MonitorReach { s with enabled := true }

/-! ### Route programmer: _reconfigure_routing / _update_routing_tables -/

/-- Decimal digits of a natural number, most significant first; fuel-based so
the kernel can evaluate it. -/
def natReprAux : Nat → Nat → List Char
  | 0, _ => []
  | fuel + 1, n =>
    if n < 10 then [Nat.digitChar n]
    else natReprAux fuel (n / 10) ++ [Nat.digitChar (n % 10)]

/-- Decimal rendering of a natural number, as produced by str(...) and
f-string interpolation of a non-negative Python int. -/
def natRepr (n : Nat) : String := ⟨natReprAux (n + 1) n⟩

/-- The per-interface data _update_routing_tables consumes: the interface's
config gateway and weight (self.interfaces[name]['config']), its enabled flag
(self.interfaces[name]['enabled']) and the status stored in
self.health_results[name]. -/
structure RouteIfaceInfo where
  gateway : String
  weight : Nat
  enabled : Bool
  status : HealthStatus
  deriving DecidableEq, Repr

/-- _reconfigure_routing (health_monitor.py lines 288-301): the active
interfaces are those that are enabled and whose stored health status is
HEALTHY, in dict order. -/
def activeInterfaces (m : List (String × RouteIfaceInfo)) : List String :=
  (m.filter fun p => p.2.enabled && decide (p.2.status = .healthy)).map Prod.fst

/-- The tokens route_cmd.extend adds for one active interface
(health_monitor.py lines 314-319): nexthop via gateway dev interface
weight str(weight). -/
def nexthopTokens (m : List (String × RouteIfaceInfo)) (name : String) :
    List String :=
  match m.lookup name with
  | some info => ["nexthop", "via", info.gateway, "dev", name, "weight", natRepr info.weight]
  | none => []

/-- _update_routing_tables (health_monitor.py lines 303-331): when the active
list is non-empty, the default-route add command is the base tokens followed
by one nexthop group per active interface; when it is empty no add command is
issued (modelled as none). -/
def updateRoutingTables (m : List (String × RouteIfaceInfo))
    (active : List String) : Option (List String) :=
  if active = [] then none
  else some (["ip", "route", "add", "default"] ++ active.flatMap (nexthopTokens m))

/-- The routing reconfiguration triggered by a health transition
(health_monitor.py lines 288-301 calling lines 303-331). -/
def reconfigureRouting (m : List (String × RouteIfaceInfo)) :
    Option (List String) :=
  updateRoutingTables m (activeInterfaces m)

/-- Reads the nexthop triples (gateway, device, weight) out of an ip-route
token list: each group of the form nexthop via G dev D weight W. -/
def extractNexthops : List String → List (String × String × String)
  | "nexthop" :: "via" :: g :: "dev" :: d :: "weight" :: w :: rest =>
      (g, d, w) :: extractNexthops rest
  | _ :: rest => extractNexthops rest
  | [] => []

/-- The nexthops of the default-route command issued by a reconfiguration
(empty when no command is issued). -/
def routeNexthops (m : List (String × RouteIfaceInfo)) :
    List (String × String × String) :=
  match reconfigureRouting m with
  | some cmd => extractNexthops cmd
  | none => []

/-! ### Connection tracker: src/routing/connection_tracker.py -/

/-- ConnectionState enum (connection_tracker.py lines 15-19). -/
inductive ConnectionState where
  | NEW
  | ESTABLISHED
  | RELATED
  | INVALID
  deriving DecidableEq, Repr

/-- TrafficType enum (connection_tracker.py lines 21-26). -/
inductive TrafficType where
  | GENERAL
  | VOIP
  | GAMING
  | STREAMING
  | BANKING
  deriving DecidableEq, Repr

/-- Connection dataclass (connection_tracker.py lines 28-42); floats as
rationals. -/
structure Connection where
  src_ip : String
  dst_ip : String
  src_port : Nat
  dst_port : Nat
  protocol : String
  state : ConnectionState
  interface : String
  mark : Nat := 0
  traffic_type : TrafficType := .GENERAL
  created_at : ℚ := 0
  last_seen : ℚ := 0
  packets : Nat := 0
  bytes : Nat := 0
  deriving DecidableEq, Repr

/-- The default traffic classification rules, in the dict insertion order
classify_traffic iterates them (connection_tracker.py lines 54-73). -/
def trafficRules : List (TrafficType × List Nat × List String) :=
  [ (.VOIP, [5060, 5061, 5062, 16384, 16385, 16386], ["udp", "tcp"]),
    (.GAMING, [27015, 27016, 27017, 27018, 27019, 27020, 80, 443, 8080, 8443],
      ["udp", "tcp"]),
    (.STREAMING, [1935, 1936, 8080, 8081, 8082, 8083, 554, 8554, 8555],
      ["tcp", "udp"]),
    (.BANKING, [443, 8443, 9443], ["tcp"]) ]

/-- The rule loop of classify_traffic (connection_tracker.py lines 191-197):
return the first rule whose protocol list contains the protocol and whose
port list contains the source or the destination port. -/
def classifyAux :
    List (TrafficType × List Nat × List String) → Nat → Nat → String → TrafficType
  | [], _, _, _ => .GENERAL
  | (t, ports, protocols) :: rest, src_port, dst_port, protocol =>
    if protocol ∈ protocols ∧ (src_port ∈ ports ∨ dst_port ∈ ports) then t
    else classifyAux rest src_port dst_port protocol

/-- classify_traffic (connection_tracker.py lines 189-199). -/
def classify_traffic (src_port dst_port : Nat) (protocol : String) : TrafficType :=
  classifyAux trafficRules src_port dst_port protocol

/-- get_connection_key (connection_tracker.py lines 201-207): the f-string
src_ip:src_port-dst_ip:dst_port-protocol, with the two endpoints swapped
unless src_port < dst_port. -/
def get_connection_key (src_ip dst_ip : String) (src_port dst_port : Nat)
    (protocol : String) : String :=
  if src_port < dst_port then
    src_ip ++ ":" ++ natRepr src_port ++ "-" ++ dst_ip ++ ":" ++ natRepr dst_port
      ++ "-" ++ protocol
  else
    dst_ip ++ ":" ++ natRepr dst_port ++ "-" ++ src_ip ++ ":" ++ natRepr src_port
      ++ "-" ++ protocol

/-- The canonical key of a connection, as computed inside track_connection
(connection_tracker.py lines 211-215). -/
def connKey (c : Connection) : String :=
  get_connection_key c.src_ip c.dst_ip c.src_port c.dst_port c.protocol

/-- The sticky-session candidate classes hard-coded in track_connection
(connection_tracker.py line 223). -/
def stickyClasses : List TrafficType := [.BANKING, .VOIP]

/-- The mutable state of a ConnectionTracker: the connections dict (an
association list in dict insertion order) and the sticky_sessions set (a
duplicate-free list), both empty at construction
(connection_tracker.py lines 49-50). -/
structure TrackerState where
  connections : List (String × Connection)
  sticky_sessions : List String
  deriving DecidableEq, Repr

/-- The freshly constructed tracker: no connections, no sticky sessions. -/
def initTracker : TrackerState := ⟨[], []⟩

/-- Python dict assignment d[k] = v: overwrite in place when the key exists,
append otherwise. -/
def dictInsert (k : String) (v : Connection)
    (m : List (String × Connection)) : List (String × Connection) :=
  if m.any (fun p => p.1 == k) then
    m.map fun p => if p.1 == k then (k, v) else p
  else m ++ [(k, v)]

/-- Python set.add: insert unless already present. -/
def setAdd (k : String) (s : List String) : List String :=
  if k ∈ s then s else s ++ [k]

/-- track_connection (connection_tracker.py lines 209-232): compute the
canonical key, classify the connection, add the key to sticky_sessions when
the class is BANKING or VOIP, store the connection under the key, and return
whether the key is in sticky_sessions. -/
def track_connection (s : TrackerState) (c : Connection) (now : ℚ) :
    TrackerState × Bool :=
  let conn_key := connKey c
  let tt := classify_traffic c.src_port c.dst_port c.protocol
  let sticky' :=
    if tt ∈ stickyClasses then setAdd conn_key s.sticky_sessions
    else s.sticky_sessions
  let c' := { c with traffic_type := tt, created_at := now, last_seen := now }
  (⟨dictInsert conn_key c' s.connections, sticky'⟩, decide (conn_key ∈ sticky'))

/-- update_connection (connection_tracker.py lines 234-243): when the key is
present, add to its packet and byte counters, refresh last_seen, and replace
the interface when one is given. -/
def update_connection (s : TrackerState) (conn_key : String)
    (packets bytes : Nat) (interface : Option String) (now : ℚ) : TrackerState :=
  if s.connections.any (fun p => p.1 == conn_key) then
    { s with connections := s.connections.map fun p =>
        if p.1 == conn_key then
          (p.1, { p.2 with
                    packets := p.2.packets + packets,
                    bytes := p.2.bytes + bytes,
                    last_seen := now,
                    interface := match interface with
                      | some i => i
                      | none => p.2.interface })
        else p }
  else s

/-- The expired_keys list built by cleanup_connections
(connection_tracker.py lines 254-263): per connection, one append when it is
older than max_age and one more append when its state is INVALID — a
connection satisfying both is appended twice. -/
def expiredKeys (now max_age : ℚ) (conns : List (String × Connection)) :
    List String :=
  conns.flatMap fun p =>
    (if max_age < now - p.2.last_seen then [p.1] else []) ++
    (if p.2.state = .INVALID then [p.1] else [])

/-- The deletion loop of cleanup_connections
(connection_tracker.py lines 266-268): del connections[key] raises KeyError
when the key is absent (the Boolean result records that the loop raised and
the state it left behind); discard on the sticky set never raises. -/
def deleteLoop : List String → TrackerState → TrackerState × Bool
  | [], s => (s, false)
  | k :: ks, s =>
    if s.connections.any (fun p => p.1 == k) then
      deleteLoop ks
        ⟨s.connections.filter (fun p => !(p.1 == k)),
         s.sticky_sessions.filter (fun x => !(x == k))⟩
    else (s, true)

/-- cleanup_connections (connection_tracker.py lines 251-271): collect the
expired keys, then delete them one by one; the Boolean records whether a
KeyError was raised. -/
def cleanup_connections (s : TrackerState) (now max_age : ℚ) :
    TrackerState × Bool :=
  deleteLoop (expiredKeys now max_age s.connections) s

/-- An IP-address string contains neither of the two separator characters of
the key f-string (IPv4 literals are digits and dots). -/
def sepFree (str : String) : Prop := ':' ∉ str.data ∧ '-' ∉ str.data

instance (str : String) : Decidable (sepFree str) := by
  unfold sepFree; infer_instance

/-- A connection whose endpoint addresses are IP-address strings. -/
def wfConn (c : Connection) : Prop := sepFree c.src_ip ∧ sepFree c.dst_ip

instance (c : Connection) : Decidable (wfConn c) := by
  unfold wfConn; infer_instance

/-- Tracker states reachable from construction through the public mutating
operations, tracking connections with IP-address endpoints; cleanup is
included whether it completes or raises. -/
inductive TrackerReach : TrackerState → Prop where
  | init : TrackerReach initTracker
  | track (s : TrackerState) (c : Connection) (now : ℚ) :
      TrackerReach s → wfConn c → TrackerReach (track_connection s c now).1
  | update (s : TrackerState) (conn_key : String) (packets bytes : Nat)
      (interface : Option String) (now : ℚ) :
      TrackerReach s →
      TrackerReach (update_connection s conn_key packets bytes interface now)
  | cleanup (s : TrackerState) (now max_age : ℚ) :
      TrackerReach s → TrackerReach (cleanup_connections s now max_age).1

/-- The inclusion sticky_sessions ⊆ keys(connections). -/
def stickyWithinConnections (s : TrackerState) : Prop :=
  s.sticky_sessions ⊆ s.connections.map Prod.fst

/-- Every key in sticky_sessions is the canonical key of some connection
with IP-address endpoints whose classification is a sticky class. -/
def stickyKeysClassified (s : TrackerState) : Prop :=
  ∀ k ∈ s.sticky_sessions, ∃ c : Connection, wfConn c ∧ connKey c = k ∧
    classify_traffic c.src_port c.dst_port c.protocol ∈ stickyClasses

/-! ### Interface detector: src/routing/interface_detector.py -/

/-- int() of a decimal digit character. -/
def charVal (c : Char) : Nat := c.toNat - 48

/-- Decimal value of a digit string, most significant digit first. -/
def valFold : Nat → List Char → Nat
  | a, [] => a
  | a, c :: rest => valFold (10 * a + charVal c) rest

/-- Scan for the first digit and read the maximal digit run starting there,
as re.search of a one-or-more-digits group does. -/
def extractFirstNatAux : List Char → Option Nat
  | [] => none
  | c :: rest =>
    if c.isDigit then some (valFold 0 (c :: rest.takeWhile Char.isDigit))
    else extractFirstNatAux rest

/-- The numeric speed value extracted by _suggest_weight_based_on_speed
(interface_detector.py lines 472-475): the first maximal digit run of the
speed string, converted by int(). -/
def extractFirstNat (s : String) : Option Nat := extractFirstNatAux s.data

/-- _suggest_weight_based_on_speed (interface_detector.py lines 466-482):
None or empty speed gives 1; otherwise the first number of the string gives 3
when at least 1000, 2 when at least 100, else 1 — units are never consulted. -/
def suggest_weight_based_on_speed (speed : Option String) : Nat :=
  match speed with
  | none => 1
  | some str =>
    if str = "" then 1
    else
      match extractFirstNat str with
      | some speed_mbps =>
        if 1000 ≤ speed_mbps then 3
        else if 100 ≤ speed_mbps then 2
        else 1
      | none => 1

/-- The weight function of the claim, on a speed measured in Mb/s: at least
1 Gb/s gives 3, at least 100 Mb/s gives 2, else 1. -/
def specWeight (mbps : Nat) : Nat :=
  if 1000 ≤ mbps then 3 else if 100 ≤ mbps then 2 else 1

/-- A speed string: a decimal number followed by a unit suffix. ethtool
reports such strings after Speed: and the /sys fallback of
_get_interface_speed formats the f-string number followed by Mb/s
(interface_detector.py lines 198-210). -/
def renderSpeed (n : Nat) (unit : String) : String := natRepr n ++ unit

/-- The speed a rendered string denotes, in Mb/s. -/
def speedInMbps (n : Nat) (unit : String) : Nat :=
  if unit = "Gb/s" then n * 1000 else n


/-! ## Theorems -/


/-- C2: for a probe result with packet loss in the ping range (at most 100%),
the health check verdict is FAILED exactly on total loss, DEGRADED exactly
when loss is not total but exceeds max_packet_loss or latency exceeds
max_latency_ms, HEALTHY otherwise; and consecutive_failures is reset to zero
exactly on a HEALTHY verdict and incremented otherwise. -/
theorem check_interface_health_verdicts (cfg : HealthConfig) (s : IfaceState)
    (latency packet_loss : ℚ) (hloss : packet_loss ≤ 100) :
    ((checkInterfaceHealth cfg s latency packet_loss).status = .failed ↔
        packet_loss = 100) ∧
    ((checkInterfaceHealth cfg s latency packet_loss).status = .degraded ↔
        packet_loss ≠ 100 ∧
          (cfg.max_packet_loss < packet_loss ∨ cfg.max_latency_ms < latency)) ∧
    ((checkInterfaceHealth cfg s latency packet_loss).status = .healthy ↔
        packet_loss ≠ 100 ∧ packet_loss ≤ cfg.max_packet_loss ∧
          latency ≤ cfg.max_latency_ms) ∧
    ((checkInterfaceHealth cfg s latency packet_loss).consecutive_failures = 0 ↔
        (checkInterfaceHealth cfg s latency packet_loss).status = .healthy) ∧
    ((checkInterfaceHealth cfg s latency packet_loss).status ≠ .healthy →
        (checkInterfaceHealth cfg s latency packet_loss).consecutive_failures =
          s.consecutive_failures + 1) := by
  unfold checkInterfaceHealth
  split_ifs with h1 h2
  · have h100 : packet_loss = 100 := le_antisymm hloss h1
    simp [h100]
  · have h100 : packet_loss ≠ 100 := by
      intro h; rw [h] at h1; exact h1 le_rfl
    simp [h100, h2]
    intro hle
    rcases h2 with h2 | h2
    · exact absurd hle (not_le.mpr h2)
    · exact h2
  · have h100 : packet_loss ≠ 100 := by
      intro h; rw [h] at h1; exact h1 le_rfl
    push_neg at h2
    simp [h100, h2]

/-- C2 witness: the HEALTHY branch at a concrete sample (latency 10, loss 0)
under the default configuration. -/
theorem check_interface_health_verdicts_witness :
    ((checkInterfaceHealth defaultHealthConfig initIface 10 0).status = .failed ↔
        (0 : ℚ) = 100) ∧
    ((checkInterfaceHealth defaultHealthConfig initIface 10 0).status = .degraded ↔
        (0 : ℚ) ≠ 100 ∧
          (defaultHealthConfig.max_packet_loss < 0 ∨
            defaultHealthConfig.max_latency_ms < 10)) ∧
    ((checkInterfaceHealth defaultHealthConfig initIface 10 0).status = .healthy ↔
        (0 : ℚ) ≠ 100 ∧ (0 : ℚ) ≤ defaultHealthConfig.max_packet_loss ∧
          (10 : ℚ) ≤ defaultHealthConfig.max_latency_ms) ∧
    ((checkInterfaceHealth defaultHealthConfig initIface 10 0).consecutive_failures = 0 ↔
        (checkInterfaceHealth defaultHealthConfig initIface 10 0).status = .healthy) ∧
    ((checkInterfaceHealth defaultHealthConfig initIface 10 0).status ≠ .healthy →
        (checkInterfaceHealth defaultHealthConfig initIface 10 0).consecutive_failures =
          initIface.consecutive_failures + 1) :=
  check_interface_health_verdicts defaultHealthConfig initIface 10 0 (by norm_num)

/-- C3 counterexample: a previously DEGRADED interface with one prior
consecutive failure (so two after the lost sample, below retry_count 3)
observes a full-loss sample; the code triggers failover although the claim's
condition — count reached retry_count, or the interface was healthy and full
loss was just observed — is false. -/
theorem failover_trigger_counterexample :
    (monitorStep defaultHealthConfig
        { initIface with status := .degraded, consecutive_failures := 1 } 0 100).2 = true ∧
    ¬ (defaultHealthConfig.retry_count ≤
          (checkInterfaceHealth defaultHealthConfig
            { initIface with status := .degraded, consecutive_failures := 1 } 0 100).consecutive_failures ∨
        (({ initIface with status := .degraded, consecutive_failures := 1 } : IfaceState).status =
            .healthy ∧ (100 : ℚ) = 100)) := by
  decide

/-- C3 amended: on every sample with verdict lost (full packet loss), the
monitoring loop triggers failover unconditionally — the prior health of the
interface and the consecutive-failure count are irrelevant, because
_should_trigger_failover fires on the stored FAILED status alone. -/
theorem failover_trigger_on_full_loss (cfg : HealthConfig) (s : IfaceState)
    (latency packet_loss : ℚ) (hloss : 100 ≤ packet_loss) :
    (monitorStep cfg s latency packet_loss).2 = true := by
  unfold monitorStep shouldTriggerFailover checkInterfaceHealth
  simp [if_pos hloss]

/-- C3 amended witness: a full-loss sample on a DEGRADED interface whose
count is still below retry_count triggers failover. -/
theorem failover_trigger_on_full_loss_witness :
    (100 : ℚ) ≤ 100 ∧
    (monitorStep defaultHealthConfig
        { initIface with status := .degraded, consecutive_failures := 1 } 0 100).2 = true :=
  ⟨le_rfl,
    failover_trigger_on_full_loss defaultHealthConfig
      { initIface with status := .degraded, consecutive_failures := 1 } 0 100 le_rfl⟩

/-- Counter invariant of the health monitor: successful_checks never exceeds
total_checks on any reachable state. -/
theorem successful_le_total {s : IfaceState} (h : MonitorReach s) :
    s.successful_checks ≤ s.total_checks := by
  induction h with
  | init => simp [initIface]
  | check cfg s latency packet_loss _ ih =>
      unfold checkInterfaceHealth
      split_ifs <;> simp <;> omega
  | disable s _ ih => simpa using ih
  | enable s _ ih => simpa using ih
  | recoveryEnable s _ ih => simpa using ih

/-- C10: on every reachable monitor state the uptime percentage is well
defined — the denominator max(total_checks, 1) is at least one, in particular
before any check has run — and lies in [0, 100]. -/
theorem uptime_percentage_bounds {s : IfaceState} (h : MonitorReach s) :
    1 ≤ max s.total_checks 1 ∧
    0 ≤ uptimePercentage s ∧ uptimePercentage s ≤ 100 := by
  have hst := successful_le_total h
  refine ⟨le_max_right _ _, ?_, ?_⟩
  · unfold uptimePercentage
    positivity
  · unfold uptimePercentage
    have hd : (0 : ℚ) < ((max s.total_checks 1 : Nat) : ℚ) := by
      exact_mod_cast Nat.lt_of_lt_of_le Nat.zero_lt_one (le_max_right _ _)
    have hle : (s.successful_checks : ℚ) ≤ ((max s.total_checks 1 : Nat) : ℚ) := by
      exact_mod_cast le_trans hst (le_max_left _ _)
    have : (s.successful_checks : ℚ) / ((max s.total_checks 1 : Nat) : ℚ) ≤ 1 :=
      (div_le_one hd).mpr hle
    nlinarith

/-- C10 witness: the bounds hold at the initial state, before any check. -/
theorem uptime_percentage_bounds_witness :
    1 ≤ max initIface.total_checks 1 ∧
    0 ≤ uptimePercentage initIface ∧ uptimePercentage initIface ≤ 100 :=
  uptime_percentage_bounds MonitorReach.init



/-- A well-formed nexthop group at the head of the token list is read off as
one triple. -/
theorem extractNexthops_group (g d w : String) (rest : List String) :
    extractNexthops ("nexthop" :: "via" :: g :: "dev" :: d :: "weight" :: w :: rest) =
      (g, d, w) :: extractNexthops rest := rfl

/-- The base tokens of the route command contribute no nexthops. -/
theorem extractNexthops_base (l : List String) :
    extractNexthops ("ip" :: "route" :: "add" :: "default" :: l) = extractNexthops l := rfl

/-- In an association list with duplicate-free keys, lookup of a member's key
returns that member's value. -/
theorem lookup_eq_of_mem :
    ∀ {m : List (String × RouteIfaceInfo)} {k : String} {v : RouteIfaceInfo},
      (m.map Prod.fst).Nodup → (k, v) ∈ m → m.lookup k = some v
  | [], _, _, _, hm => absurd hm (List.not_mem_nil _)
  | ⟨a1, a2⟩ :: rest, k, v, hnd, hm => by
      rcases List.mem_cons.mp hm with h | h
      · cases h
        simp [List.lookup]
      · have hk : k ≠ a1 := by
          intro he
          have : a1 ∈ rest.map Prod.fst := he ▸ List.mem_map_of_mem Prod.fst h
          exact (List.nodup_cons.mp hnd).1 this
        have ih := lookup_eq_of_mem (List.nodup_cons.mp hnd).2 h
        simpa [List.lookup, beq_false_of_ne hk] using ih

/-- Extracting nexthops from the concatenated nexthop groups of a list of
interfaces, each resolvable in the interface dict, yields one triple
(gateway, device, weight) per interface, in order. -/
theorem extract_nexthop_groups (m : List (String × RouteIfaceInfo)) :
    ∀ l : List (String × RouteIfaceInfo),
      (∀ p ∈ l, m.lookup p.1 = some p.2) →
      extractNexthops ((l.map Prod.fst).flatMap (nexthopTokens m)) =
        l.map fun p => (p.2.gateway, p.1, natRepr p.2.weight)
  | [], _ => rfl
  | p :: rest, h => by
      have hp : m.lookup p.1 = some p.2 := h p (List.mem_cons_self _ _)
      have ih := extract_nexthop_groups m rest fun q hq => h q (List.mem_cons_of_mem _ hq)
      simp only [List.map_cons, List.flatMap_cons, nexthopTokens, hp,
        List.cons_append, List.nil_append]
      rw [extractNexthops_group, ih]



/-- C1: after a routing reconfiguration, the nexthops of the default
multipath route command are exactly the enabled interfaces with stored status
HEALTHY, each with its configured gateway and weight; and no default-route
add command is issued precisely when no interface is enabled and healthy. -/
theorem routing_nexthops_exactly_active (m : List (String × RouteIfaceInfo))
    (hnd : (m.map Prod.fst).Nodup) :
    routeNexthops m =
      (m.filter fun p => p.2.enabled && decide (p.2.status = .healthy)).map
        (fun p => (p.2.gateway, p.1, natRepr p.2.weight)) ∧
    (reconfigureRouting m = none ↔
      ∀ p ∈ m, ¬(p.2.enabled = true ∧ p.2.status = .healthy)) := by
  have hsub : ∀ p ∈ m.filter fun p => p.2.enabled && decide (p.2.status = .healthy),
      m.lookup p.1 = some p.2 := fun p hp =>
    lookup_eq_of_mem hnd (List.mem_of_mem_filter hp)
  have hext := extract_nexthop_groups m _ hsub
  by_cases he : activeInterfaces m = []
  · have hr : reconfigureRouting m = none := by
      simp [reconfigureRouting, updateRoutingTables, he]
    have hfil : (m.filter fun p => p.2.enabled && decide (p.2.status = .healthy)) = [] :=
      List.map_eq_nil_iff.mp he
    refine ⟨by simp [routeNexthops, hr, hfil], ?_⟩
    rw [hr]
    simp only [true_iff]
    intro p hp hcontra
    have : p ∈ m.filter fun p => p.2.enabled && decide (p.2.status = .healthy) :=
      List.mem_filter.mpr ⟨hp, by simp [hcontra.1, hcontra.2]⟩
    simp [hfil] at this
  · have hr : reconfigureRouting m =
        some (["ip", "route", "add", "default"] ++
          (activeInterfaces m).flatMap (nexthopTokens m)) := by
      simp [reconfigureRouting, updateRoutingTables, he]
    refine ⟨?_, ?_⟩
    · rw [routeNexthops, hr]
      simp only [List.cons_append, List.nil_append]
      rw [extractNexthops_base]
      exact hext
    · rw [hr]
      simp only [reduceCtorEq, false_iff]
      intro hall
      apply he
      have hfil : (m.filter fun p => p.2.enabled && decide (p.2.status = .healthy)) = [] := by
        rw [List.filter_eq_nil_iff]
        intro p hp
        simp only [Bool.and_eq_true, decide_eq_true_eq]
        intro hcontra
        exact hall p hp ⟨hcontra.1, hcontra.2⟩
      simp [activeInterfaces, hfil]

/-- C1 witness: two interfaces, eth0 enabled and healthy, eth1 enabled but
failed — the route command carries exactly eth0's nexthop. -/
theorem routing_nexthops_exactly_active_witness :
    routeNexthops
        [("eth0", ⟨"192.168.100.1", 2, true, .healthy⟩),
         ("eth1", ⟨"192.168.200.1", 1, true, .failed⟩)] =
      ([("eth0", (⟨"192.168.100.1", 2, true, .healthy⟩ : RouteIfaceInfo)),
        ("eth1", ⟨"192.168.200.1", 1, true, .failed⟩)].filter
          fun p => p.2.enabled && decide (p.2.status = .healthy)).map
        (fun p => (p.2.gateway, p.1, natRepr p.2.weight)) ∧
    (reconfigureRouting
        [("eth0", ⟨"192.168.100.1", 2, true, .healthy⟩),
         ("eth1", ⟨"192.168.200.1", 1, true, .failed⟩)] = none ↔
      ∀ p ∈ [("eth0", (⟨"192.168.100.1", 2, true, .healthy⟩ : RouteIfaceInfo)),
             ("eth1", ⟨"192.168.200.1", 1, true, .failed⟩)],
        ¬(p.2.enabled = true ∧ p.2.status = .healthy)) :=
  routing_nexthops_exactly_active _ (by decide)



/-- C4 counterexample: for sport = dport = 443 and distinct endpoint
addresses, the two directions of the flow produce different canonical keys
(the swap branch is taken for both directions). -/
theorem connection_key_not_symmetric_at_equal_ports :
    get_connection_key "10.0.0.1" "10.0.0.2" 443 443 "tcp" ≠
      get_connection_key "10.0.0.2" "10.0.0.1" 443 443 "tcp" := by decide

/-- C4 amended: the canonical flow key is direction-independent whenever the
two ports differ; at sport = dport the two directions give different keys
unless the addresses coincide. -/
theorem connection_key_symmetric (src_ip dst_ip : String)
    (src_port dst_port : Nat) (protocol : String) (h : src_port ≠ dst_port) :
    get_connection_key src_ip dst_ip src_port dst_port protocol =
      get_connection_key dst_ip src_ip dst_port src_port protocol := by
  unfold get_connection_key
  rcases Nat.lt_or_ge src_port dst_port with hlt | hge
  · rw [if_pos hlt, if_neg (by omega)]
  · have hgt : ¬ src_port < dst_port := by omega
    rw [if_neg hgt, if_pos (by omega)]

/-- C4 amended witness: the banking flow's key is the same in both
directions (ports 52344 and 443). -/
theorem connection_key_symmetric_witness :
    (52344 : Nat) ≠ 443 ∧
    get_connection_key "192.168.1.100" "93.184.216.34" 52344 443 "tcp" =
      get_connection_key "93.184.216.34" "192.168.1.100" 443 52344 "tcp" :=
  ⟨by decide,
    connection_key_symmetric "192.168.1.100" "93.184.216.34" 52344 443 "tcp"
      (by decide)⟩

/-- C5: a TCP flow from ephemeral port 52344 (in no rule's port list) to
port 443 is classified GAMING, not BANKING — the GAMING rule's port list
contains 443 and is checked before the BANKING rule. -/
theorem classify_banking_flow_returns_gaming :
    classify_traffic 52344 443 "tcp" = .GAMING ∧
    TrafficType.GAMING ≠ TrafficType.BANKING := by decide

/-- C8: on a connection that is both older than max_age and in state INVALID,
cleanup_connections raises KeyError — the key is appended to expired_keys
twice and the second del finds it gone. The entry itself has been removed
from the connection table and the sticky set when the exception escapes. -/
theorem cleanup_raises_on_expired_invalid :
    cleanup_connections
        ⟨[("10.0.0.1:1-10.0.0.2:2-tcp",
            { src_ip := "10.0.0.1", dst_ip := "10.0.0.2", src_port := 1,
              dst_port := 2, protocol := "tcp", state := .INVALID,
              interface := "eth0" })],
          ["10.0.0.1:1-10.0.0.2:2-tcp"]⟩ 4000 3600 =
      (⟨[], []⟩, true) := by
  have h : (3600 : ℚ) < 4000 - 0 := by norm_num
  simp [cleanup_connections, expiredKeys, deleteLoop, h]

/-- Dict assignment preserves every existing key. -/
theorem mem_keys_dictInsert_of_mem (k : String) (v : Connection)
    (m : List (String × Connection)) (x : String)
    (hx : x ∈ m.map Prod.fst) : x ∈ (dictInsert k v m).map Prod.fst := by
  unfold dictInsert
  split_ifs with hp
  · obtain ⟨q, hq, hqx⟩ := List.mem_map.mp hx
    rw [List.map_map]
    apply List.mem_map.mpr
    refine ⟨q, hq, ?_⟩
    by_cases hqk : (q.1 == k) = true
    · simp only [Function.comp_apply, if_pos hqk]
      rw [← hqx]
      exact (eq_of_beq hqk).symm
    · simp only [Function.comp_apply, if_neg hqk]
      exact hqx
  · rw [List.map_append]
    exact List.mem_append_left _ hx

/-- Dict assignment puts the assigned key among the keys. -/
theorem key_mem_dictInsert (k : String) (v : Connection)
    (m : List (String × Connection)) : k ∈ (dictInsert k v m).map Prod.fst := by
  unfold dictInsert
  split_ifs with hp
  · obtain ⟨q, hq, hqk⟩ := List.any_eq_true.mp hp
    rw [List.map_map]
    apply List.mem_map.mpr
    refine ⟨q, hq, ?_⟩
    simp only [Function.comp_apply, eq_of_beq hqk]
    simp
  · rw [List.map_append]
    exact List.mem_append_right _ (by simp)

/-- update_connection leaves the sticky set and the key list unchanged. -/
theorem update_connection_fields (s : TrackerState) (conn_key : String)
    (packets bytes : Nat) (interface : Option String) (now : ℚ) :
    (update_connection s conn_key packets bytes interface now).sticky_sessions =
      s.sticky_sessions ∧
    (update_connection s conn_key packets bytes interface now).connections.map
        Prod.fst = s.connections.map Prod.fst := by
  unfold update_connection
  split_ifs with hp
  · refine ⟨rfl, ?_⟩
    rw [List.map_map]
    apply List.map_congr_left
    intro q _
    by_cases hq : q.1 = conn_key <;> simp [hq]
  · exact ⟨rfl, rfl⟩

/-- Each deletion step of cleanup preserves the sticky-within-connections
inclusion, so the loop preserves it whether or not it raises. -/
theorem deleteLoop_sticky_within :
    ∀ (ks : List String) (t : TrackerState),
      stickyWithinConnections t → stickyWithinConnections (deleteLoop ks t).1
  | [], _, ht => ht
  | k :: ks, t, ht => by
    unfold deleteLoop
    split_ifs with hp
    · apply deleteLoop_sticky_within ks
      intro x hx
      have hxs : x ∈ t.sticky_sessions := (List.mem_filter.mp hx).1
      have hxk : (!(x == k)) = true := (List.mem_filter.mp hx).2
      obtain ⟨q, hq, hqx⟩ := List.mem_map.mp (ht hxs)
      apply List.mem_map.mpr
      refine ⟨q, List.mem_filter.mpr ⟨hq, ?_⟩, hqx⟩
      rw [hqx]
      exact hxk
    · exact ht

/-- C9: sticky_sessions ⊆ keys(connections) holds for the freshly constructed
tracker and is preserved by track_connection, update_connection, and
cleanup_connections — for cleanup also in the state left behind when it
raises, since that state is the one reached just before the failing del. -/
theorem sticky_within_connections_invariant :
    stickyWithinConnections initTracker ∧
    (∀ (s : TrackerState) (c : Connection) (now : ℚ),
      stickyWithinConnections s →
      stickyWithinConnections (track_connection s c now).1) ∧
    (∀ (s : TrackerState) (conn_key : String) (packets bytes : Nat)
        (interface : Option String) (now : ℚ),
      stickyWithinConnections s →
      stickyWithinConnections
        (update_connection s conn_key packets bytes interface now)) ∧
    (∀ (s : TrackerState) (now max_age : ℚ),
      stickyWithinConnections s →
      stickyWithinConnections (cleanup_connections s now max_age).1) := by
  refine ⟨?_, ?_, ?_, ?_⟩
  · intro k hk
    simp [initTracker] at hk
  · intro s c now hs k hk
    simp only [track_connection] at hk ⊢
    by_cases hc : classify_traffic c.src_port c.dst_port c.protocol ∈ stickyClasses
    · rw [if_pos hc] at hk
      unfold setAdd at hk
      split_ifs at hk with hmem
      · exact mem_keys_dictInsert_of_mem _ _ _ k (hs hk)
      · rcases List.mem_append.mp hk with hk | hk
        · exact mem_keys_dictInsert_of_mem _ _ _ k (hs hk)
        · simp only [List.mem_singleton] at hk
          subst hk
          exact key_mem_dictInsert _ _ _
    · rw [if_neg hc] at hk
      exact mem_keys_dictInsert_of_mem _ _ _ k (hs hk)
  · intro s conn_key packets bytes interface now hs k hk
    rw [(update_connection_fields s conn_key packets bytes interface now).1] at hk
    rw [(update_connection_fields s conn_key packets bytes interface now).2]
    exact hs hk
  · intro s now max_age hs
    exact deleteLoop_sticky_within _ s hs

/-- C9 witness: the invariant's cleanup conjunct applied at a one-connection
state that satisfies the inclusion. -/
theorem sticky_within_connections_invariant_witness :
    stickyWithinConnections
      (cleanup_connections
        ⟨[("k", { src_ip := "10.0.0.1", dst_ip := "10.0.0.2", src_port := 1,
                  dst_port := 2, protocol := "tcp", state := .NEW,
                  interface := "eth0" })], ["k"]⟩ 100 3600).1 :=
  sticky_within_connections_invariant.2.2.2 _ 100 3600
    (fun k hk => by simpa using hk)




/-- String append concatenates the underlying character lists. -/
theorem str_data_append (s t : String) : (s ++ t).data = s.data ++ t.data := rfl

/-- Every digit value below ten renders as a decimal digit character. -/
theorem digitChar_isDigit {m : Nat} (h : m < 10) :
    (Nat.digitChar m).isDigit = true := by
  have hall : ∀ k, k < 10 → (Nat.digitChar k).isDigit = true := by decide
  exact hall m h

/-- int() recovers the value of a rendered decimal digit. -/
theorem charVal_digitChar {m : Nat} (h : m < 10) :
    charVal (Nat.digitChar m) = m := by
  have hall : ∀ k, k < 10 → charVal (Nat.digitChar k) = k := by decide
  exact hall m h

/-- Every character of a rendered natural is a decimal digit character. -/
theorem natReprAux_digits :
    ∀ (fuel n : Nat) (c : Char), c ∈ natReprAux fuel n →
      ∃ m, m < 10 ∧ c = Nat.digitChar m
  | 0, _, _, hc => absurd hc (List.not_mem_nil _)
  | fuel + 1, n, c, hc => by
    unfold natReprAux at hc
    split_ifs at hc with h
    · simp only [List.mem_singleton] at hc
      exact ⟨n, h, hc⟩
    · rcases List.mem_append.mp hc with hc | hc
      · exact natReprAux_digits fuel (n / 10) c hc
      · simp only [List.mem_singleton] at hc
        exact ⟨n % 10, Nat.mod_lt _ (by omega), hc⟩

/-- A rendered natural is never the empty character list. -/
theorem natReprAux_ne_nil (fuel n : Nat) (h : fuel ≠ 0) :
    natReprAux fuel n ≠ [] := by
  match fuel with
  | 0 => exact absurd rfl h
  | fuel + 1 =>
    unfold natReprAux
    split_ifs
    · simp
    · simp

/-- Folding one more digit multiplies the accumulated value by ten. -/
theorem valFold_append (l : List Char) (c : Char) :
    ∀ a, valFold a (l ++ [c]) = 10 * valFold a l + charVal c := by
  induction l with
  | nil => intro a; rfl
  | cons d rest ih =>
    intro a
    rw [List.cons_append]
    show valFold (10 * a + charVal d) (rest ++ [c]) =
      10 * valFold (10 * a + charVal d) rest + charVal c
    exact ih (10 * a + charVal d)

/-- Reading back the decimal rendering of n under accumulator a yields
a shifted by the digit count plus n. -/
theorem valFold_natReprAux :
    ∀ (fuel n : Nat), n < fuel → ∀ a,
      valFold a (natReprAux fuel n) = a * 10 ^ (natReprAux fuel n).length + n
  | 0, n, h, _ => absurd h (Nat.not_lt_zero n)
  | fuel + 1, n, h, a => by
    unfold natReprAux
    split_ifs with h10
    · rw [show valFold a [Nat.digitChar n] = 10 * a + charVal (Nat.digitChar n) from rfl,
        charVal_digitChar h10, List.length_singleton, pow_one]
      omega
    · have hdiv : n / 10 < fuel := by
        have h1 : n / 10 < n := Nat.div_lt_self (by omega) (by omega)
        omega
      rw [valFold_append, valFold_natReprAux fuel (n / 10) hdiv a,
        List.length_append]
      have : charVal (Nat.digitChar (n % 10)) = n % 10 :=
        charVal_digitChar (Nat.mod_lt _ (by omega))
      rw [this]
      simp only [List.length_singleton]
      ring_nf
      omega

/-- Reading back the decimal rendering of n yields n. -/
theorem valFold_natRepr (n : Nat) : valFold 0 (natReprAux (n + 1) n) = n := by
  simpa using valFold_natReprAux (n + 1) n (Nat.lt_succ_self n) 0

/-- takeWhile over a satisfying prefix followed by a failing character
returns exactly the prefix. -/
theorem takeWhile_prefix_stop {p : Char → Bool} :
    ∀ (l₁ : List Char) (c : Char) (l₂ : List Char),
      (∀ x ∈ l₁, p x = true) → p c = false →
      (l₁ ++ c :: l₂).takeWhile p = l₁
  | [], c, l₂, _, hc => by
    rw [List.nil_append]
    exact List.takeWhile_cons_of_neg (by simp [hc])
  | d :: rest, c, l₂, hall, hc => by
    have hd : p d = true := hall d (List.mem_cons_self _ _)
    rw [List.cons_append, List.takeWhile_cons_of_pos hd,
      takeWhile_prefix_stop rest c l₂
        (fun x hx => hall x (List.mem_cons_of_mem _ hx)) hc]

/-- The regex-extracted number of a rendered Mb/s speed string is the
rendered value. -/
theorem extractFirstNat_mbps (n : Nat) :
    extractFirstNat (renderSpeed n "Mb/s") = some n := by
  unfold extractFirstNat renderSpeed natRepr
  rw [str_data_append]
  have hmb : ("Mb/s" : String).data = ['M', 'b', '/', 's'] := rfl
  rw [hmb]
  obtain ⟨d, ds, hds⟩ := List.exists_cons_of_ne_nil (natReprAux_ne_nil (n + 1) n (by omega))
  have hdig : ∀ x ∈ natReprAux (n + 1) n, x.isDigit = true := by
    intro x hx
    obtain ⟨m, hm, rfl⟩ := natReprAux_digits _ _ _ hx
    exact digitChar_isDigit hm
  have hddig : d.isDigit = true := hdig d (hds ▸ List.mem_cons_self _ _)
  rw [hds]
  simp only [List.cons_append, List.append_eq, extractFirstNatAux, hddig, if_pos]
  have htake : (ds ++ 'M' :: ['b', '/', 's']).takeWhile Char.isDigit = ds := by
    apply takeWhile_prefix_stop
    · intro x hx
      exact hdig x (hds ▸ List.mem_cons_of_mem _ hx)
    · decide
  rw [htake, ← hds, valFold_natRepr]

/-- C7 counterexample: the detector's weight suggestion reads the number and
ignores the unit: the speed string rendered from 1 Gb/s gets weight 1,
although the claim's rule assigns 3 to any speed of at least 1 Gb/s. -/
theorem suggest_weight_ignores_units :
    suggest_weight_based_on_speed (some (renderSpeed 1 "Gb/s")) = 1 ∧
    specWeight (speedInMbps 1 "Gb/s") = 3 := by decide

/-- C7 amended: the claimed weight rule holds for speed strings whose number
is in Mb/s — the only unit the detector itself renders (the /sys fallback
formats Mb/s, and ethtool reports Speed in Mb/s) — and the weight is 1 when
no speed is known (None or a string with no number, e.g. ethtool Unknown!);
for a string in any other unit the number is misread as Mb/s. -/
theorem suggest_weight_correct_for_mbps (n : Nat) :
    suggest_weight_based_on_speed (some (renderSpeed n "Mb/s")) = specWeight n ∧
    suggest_weight_based_on_speed none = 1 ∧
    suggest_weight_based_on_speed (some "Unknown!") = 1 := by
  refine ⟨?_, rfl, by decide⟩
  have hne : renderSpeed n "Mb/s" ≠ "" := by
    intro h
    have h2 := congrArg String.data h
    unfold renderSpeed natRepr at h2
    rw [str_data_append, show ("" : String).data = [] from rfl] at h2
    exact absurd (List.append_eq_nil.mp h2).2 (by decide)
  rw [show suggest_weight_based_on_speed (some (renderSpeed n "Mb/s")) =
      (if renderSpeed n "Mb/s" = "" then 1
       else match extractFirstNat (renderSpeed n "Mb/s") with
         | some speed_mbps =>
            if 1000 ≤ speed_mbps then 3 else if 100 ≤ speed_mbps then 2 else 1
         | none => 1) from rfl]
  rw [if_neg hne, extractFirstNat_mbps n]
  rfl




/-- No character of a rendered natural is a key separator. -/
theorem sep_not_mem_natReprAux (fuel n : Nat) :
    ':' ∉ natReprAux fuel n ∧ '-' ∉ natReprAux fuel n := by
  have hd : ∀ m, m < 10 → Nat.digitChar m ≠ ':' ∧ Nat.digitChar m ≠ '-' := by decide
  constructor <;>
    · intro hmem
      obtain ⟨m, hm, hc⟩ := natReprAux_digits _ _ _ hmem
      first
        | exact (hd m hm).1 hc.symm
        | exact (hd m hm).2 hc.symm

/-- Lists that agree and contain a separator absent from both prefixes split
identically at its first occurrence. -/
theorem split_at_sep {sep : Char} :
    ∀ {a₁ : List Char} {b₁ : List Char} {a₂ b₂ : List Char},
      sep ∉ a₁ → sep ∉ a₂ → a₁ ++ sep :: b₁ = a₂ ++ sep :: b₂ →
      a₁ = a₂ ∧ b₁ = b₂
  | [], b₁, [], b₂, _, _, h => ⟨rfl, by simpa using h⟩
  | [], b₁, x :: a₂, b₂, _, h₂, h => by
    simp only [List.nil_append, List.cons_append, List.cons.injEq] at h
    rw [← h.1] at h₂
    exact absurd (List.mem_cons_self sep a₂) h₂
  | x :: a₁, b₁, [], b₂, h₁, _, h => by
    simp only [List.nil_append, List.cons_append, List.cons.injEq] at h
    rw [h.1] at h₁
    exact absurd (List.mem_cons_self sep a₁) h₁
  | x :: a₁, b₁, y :: a₂, b₂, h₁, h₂, h => by
    simp only [List.cons_append, List.cons.injEq] at h
    have ih := split_at_sep (List.not_mem_of_not_mem_cons h₁)
      (List.not_mem_of_not_mem_cons h₂) h.2
    exact ⟨by rw [h.1, ih.1], ih.2⟩

/-- Decimal renderings are injective. -/
theorem natReprAux_inj {p q : Nat}
    (h : natReprAux (p + 1) p = natReprAux (q + 1) q) : p = q := by
  have hp := valFold_natRepr p
  rw [h, valFold_natRepr q] at hp
  exact hp.symm

/-- The character list underlying a canonical connection key. -/
theorem get_connection_key_data (src_ip dst_ip : String) (sp dp : Nat)
    (proto : String) :
    (get_connection_key src_ip dst_ip sp dp proto).data =
      if sp < dp then
        src_ip.data ++ ':' :: (natReprAux (sp + 1) sp ++ '-' ::
          (dst_ip.data ++ ':' :: (natReprAux (dp + 1) dp ++ '-' :: proto.data)))
      else
        dst_ip.data ++ ':' :: (natReprAux (dp + 1) dp ++ '-' ::
          (src_ip.data ++ ':' :: (natReprAux (sp + 1) sp ++ '-' :: proto.data))) := by
  unfold get_connection_key natRepr
  split_ifs with h <;> simp [str_data_append]

/-- Unique decomposition of an encoded key whose address parts are free of
the separator characters. -/
theorem enc_decomp {a₁ b₁ r₁ a₂ b₂ r₂ : List Char} {p₁ q₁ p₂ q₂ : Nat}
    (ha₁ : ':' ∉ a₁) (ha₂ : ':' ∉ a₂) (hb₁ : ':' ∉ b₁) (hb₂ : ':' ∉ b₂)
    (h : a₁ ++ ':' :: (natReprAux (p₁ + 1) p₁ ++ '-' ::
           (b₁ ++ ':' :: (natReprAux (q₁ + 1) q₁ ++ '-' :: r₁))) =
         a₂ ++ ':' :: (natReprAux (p₂ + 1) p₂ ++ '-' ::
           (b₂ ++ ':' :: (natReprAux (q₂ + 1) q₂ ++ '-' :: r₂)))) :
    a₁ = a₂ ∧ p₁ = p₂ ∧ b₁ = b₂ ∧ q₁ = q₂ ∧ r₁ = r₂ := by
  obtain ⟨hA, h⟩ := split_at_sep ha₁ ha₂ h
  obtain ⟨hP, h⟩ := split_at_sep (sep_not_mem_natReprAux _ _).2
    (sep_not_mem_natReprAux _ _).2 h
  obtain ⟨hB, h⟩ := split_at_sep hb₁ hb₂ h
  obtain ⟨hQ, h⟩ := split_at_sep (sep_not_mem_natReprAux _ _).2
    (sep_not_mem_natReprAux _ _).2 h
  exact ⟨hA, natReprAux_inj hP, hB, natReprAux_inj hQ, h⟩

/-- Equal underlying character lists give equal strings. -/
theorem str_ext {s t : String} (h : s.data = t.data) : s = t := by
  cases s; cases t; exact congrArg String.mk h

/-- The classification rule scan is symmetric in the two ports. -/
theorem classifyAux_comm :
    ∀ (rules : List (TrafficType × List Nat × List String))
      (sp dp : Nat) (proto : String),
      classifyAux rules sp dp proto = classifyAux rules dp sp proto
  | [], _, _, _ => rfl
  | (t, ports, protocols) :: rest, sp, dp, proto => by
    unfold classifyAux
    rw [classifyAux_comm rest sp dp proto]
    by_cases hp : proto ∈ protocols ∧ (sp ∈ ports ∨ dp ∈ ports)
    · rw [if_pos hp, if_pos ⟨hp.1, hp.2.symm⟩]
    · rw [if_neg hp, if_neg (fun hc => hp ⟨hc.1, hc.2.symm⟩)]

/-- classify_traffic is direction-independent. -/
theorem classify_traffic_comm (sp dp : Nat) (proto : String) :
    classify_traffic sp dp proto = classify_traffic dp sp proto :=
  classifyAux_comm trafficRules sp dp proto

/-- Two connections with IP-address endpoints and the same canonical key
classify identically: the key determines the port pair (as an unordered
pair) and the protocol. -/
theorem classify_eq_of_key_eq {c₁ c₂ : Connection}
    (h₁ : wfConn c₁) (h₂ : wfConn c₂) (hk : connKey c₁ = connKey c₂) :
    classify_traffic c₁.src_port c₁.dst_port c₁.protocol =
      classify_traffic c₂.src_port c₂.dst_port c₂.protocol := by
  have hd := congrArg String.data hk
  unfold connKey at hd
  rw [get_connection_key_data, get_connection_key_data] at hd
  obtain ⟨hs₁, hd₁⟩ := h₁
  obtain ⟨hs₂, hd₂⟩ := h₂
  split_ifs at hd with hlt₁ hlt₂ hlt₂
  · obtain ⟨-, hp, -, hq, hr⟩ := enc_decomp hs₁.1 hs₂.1 hd₁.1 hd₂.1 hd
    rw [hp, hq, str_ext hr]
  · obtain ⟨-, hp, -, hq, hr⟩ := enc_decomp hs₁.1 hd₂.1 hd₁.1 hs₂.1 hd
    rw [hp, hq, str_ext hr, classify_traffic_comm]
  · obtain ⟨-, hp, -, hq, hr⟩ := enc_decomp hd₁.1 hs₂.1 hs₁.1 hd₂.1 hd
    rw [classify_traffic_comm, hp, hq, str_ext hr]
  · obtain ⟨-, hp, -, hq, hr⟩ := enc_decomp hd₁.1 hd₂.1 hs₁.1 hs₂.1 hd
    rw [classify_traffic_comm, hp, hq, str_ext hr, classify_traffic_comm]



/-- The deletion loop only ever removes sticky keys. -/
theorem deleteLoop_sticky_subset :
    ∀ (ks : List String) (t : TrackerState),
      (deleteLoop ks t).1.sticky_sessions ⊆ t.sticky_sessions
  | [], _ => fun _ hx => hx
  | k :: ks, t => by
    unfold deleteLoop
    split_ifs with hp
    · intro x hx
      exact (List.mem_filter.mp (deleteLoop_sticky_subset ks _ hx)).1
    · exact fun _ hx => hx

/-- On every reachable tracker state, each sticky key is the canonical key of
some sticky-classified connection with IP-address endpoints. -/
theorem tracker_reach_sticky_classified {s : TrackerState}
    (h : TrackerReach s) : stickyKeysClassified s := by
  induction h with
  | init => intro k hk; simp [initTracker] at hk
  | track s c now _ hwf ih =>
    intro k hk
    simp only [track_connection] at hk
    by_cases hcl : classify_traffic c.src_port c.dst_port c.protocol ∈ stickyClasses
    · rw [if_pos hcl] at hk
      unfold setAdd at hk
      split_ifs at hk with hmem
      · exact ih k hk
      · rcases List.mem_append.mp hk with hk | hk
        · exact ih k hk
        · simp only [List.mem_singleton] at hk
          subst hk
          exact ⟨c, hwf, rfl, hcl⟩
    · rw [if_neg hcl] at hk
      exact ih k hk
  | update s ck packets bytes interface now _ ih =>
    intro k hk
    rw [(update_connection_fields s ck packets bytes interface now).1] at hk
    exact ih k hk
  | cleanup s now max_age _ ih =>
    intro k hk
    exact ih k (deleteLoop_sticky_subset _ _ hk)

/-- C6: on every reachable tracker state, tracking a connection with
IP-address endpoints returns True and puts its canonical key in the sticky
set exactly when its classified traffic class is BANKING or VOIP; the
connection is stored under its key either way. -/
theorem track_connection_sticky_iff (s : TrackerState) (hs : TrackerReach s)
    (c : Connection) (hc : wfConn c) (now : ℚ) :
    ((track_connection s c now).2 = true ↔
      classify_traffic c.src_port c.dst_port c.protocol ∈ stickyClasses) ∧
    (connKey c ∈ (track_connection s c now).1.sticky_sessions ↔
      classify_traffic c.src_port c.dst_port c.protocol ∈ stickyClasses) ∧
    connKey c ∈ (track_connection s c now).1.connections.map Prod.fst := by
  have inv := tracker_reach_sticky_classified hs
  simp only [track_connection]
  by_cases hcl : classify_traffic c.src_port c.dst_port c.protocol ∈ stickyClasses
  · rw [if_pos hcl]
    have hmem : connKey c ∈ setAdd (connKey c) s.sticky_sessions := by
      unfold setAdd
      split_ifs with h
      · exact h
      · exact List.mem_append_right _ (List.mem_singleton.mpr rfl)
    exact ⟨by simp [hmem, hcl], ⟨fun _ => hcl, fun _ => hmem⟩,
      key_mem_dictInsert _ _ _⟩
  · rw [if_neg hcl]
    have hnot : connKey c ∉ s.sticky_sessions := by
      intro hmem
      obtain ⟨c₀, hwf₀, hkey₀, hcl₀⟩ := inv _ hmem
      rw [classify_eq_of_key_eq hc hwf₀ hkey₀.symm] at hcl
      exact hcl hcl₀
    exact ⟨by simp [hnot, hcl], ⟨fun hmem => absurd hmem hnot, fun h => absurd h hcl⟩,
      key_mem_dictInsert _ _ _⟩

/-- C6 witness: tracking a VOIP connection (SIP port 5060, udp) in the fresh
tracker returns True, its key is sticky, and it is stored. -/
theorem track_connection_sticky_iff_witness :
    ((track_connection initTracker
        { src_ip := "192.168.1.100", dst_ip := "93.184.216.34",
          src_port := 5060, dst_port := 12345, protocol := "udp",
          state := .NEW, interface := "eth0" } 0).2 = true ↔
      classify_traffic 5060 12345 "udp" ∈ stickyClasses) ∧
    (connKey
        { src_ip := "192.168.1.100", dst_ip := "93.184.216.34",
          src_port := 5060, dst_port := 12345, protocol := "udp",
          state := .NEW, interface := "eth0" } ∈
      (track_connection initTracker
        { src_ip := "192.168.1.100", dst_ip := "93.184.216.34",
          src_port := 5060, dst_port := 12345, protocol := "udp",
          state := .NEW, interface := "eth0" } 0).1.sticky_sessions ↔
      classify_traffic 5060 12345 "udp" ∈ stickyClasses) ∧
    connKey
        { src_ip := "192.168.1.100", dst_ip := "93.184.216.34",
          src_port := 5060, dst_port := 12345, protocol := "udp",
          state := .NEW, interface := "eth0" } ∈
      (track_connection initTracker
        { src_ip := "192.168.1.100", dst_ip := "93.184.216.34",
          src_port := 5060, dst_port := 12345, protocol := "udp",
          state := .NEW, interface := "eth0" } 0).1.connections.map Prod.fst :=
  track_connection_sticky_iff initTracker TrackerReach.init
    { src_ip := "192.168.1.100", dst_ip := "93.184.216.34",
      src_port := 5060, dst_port := 12345, protocol := "udp",
      state := .NEW, interface := "eth0" } (by decide) 0


end PhoenixNexus
